import Mathlib

/-!
Shallow embedding of the pokergosu crawling scripts.

The repository contains two variants of the same pipeline:
- `src/main.py` — the per-keyword search variant: one HTTP request per
  configured keyword against the board's search endpoint;
- `src/pokergosu_crawler.py` — the whole-board variant: a single HTTP
  request against the free-board listing page.

Both parse table rows out of the returned markup, filter by yesterday's
date, normalize links, and email an HTML summary.  Here the parsed page is
modelled as a list of rows, each row a list of cells, a cell carrying its
stripped text and the optional first anchor inside it.  Python string
operations are modelled over `String.data` (`endswith` is the list-suffix
relation, `in` on strings is the list-infix relation, `startswith` is the
list-prefix relation), and HTTP fetching is a parameter producing either a
body (a pre-parsed row list), an HTTP status error, or a transport error.
-/

namespace Pokergosu

/-- Python `s.endswith(suffix)`: the suffix relation on the character data. -/
def pyEndsWith (s suffix : String) : Bool :=
  decide (suffix.data <:+ s.data)

/-- Python `p in s` for strings: contiguous-substring (list infix) relation. -/
def pyInStr (needle hay : String) : Bool :=
  decide (needle.data <:+: hay.data)

/-- Python `s.startswith(p)`: the prefix relation on the character data. -/
def pyStartsWith (s p : String) : Bool :=
  decide (p.data <+: s.data)

/-- Python `c in s` for a single character. -/
def pyHasChar (s : String) (c : Char) : Bool :=
  s.data.contains c

/-- Python `len(s)`: number of characters. -/
def pyLen (s : String) : Nat :=
  s.data.length

/-- Python `s.split(sep)` for a one-character separator: splits on every
occurrence, keeping empty pieces; the empty string yields `[""]`. -/
def pySplitCharAux (sep : Char) : List Char → List Char → List String
  | [], cur => [String.mk cur.reverse]
  | c :: rest, cur =>
      if c == sep then String.mk cur.reverse :: pySplitCharAux sep rest []
      else pySplitCharAux sep rest (c :: cur)

/-- Python `s.split(',')` as used on `EMAIL_TO` in `send_email`. -/
def pySplitComma (s : String) : List String :=
  pySplitCharAux ',' s.data []

/-- An anchor (`<a>`) inside a cell: its stripped text and its href target.
`title_tag.get_text(strip=True)` and `title_tag['href']` in the source. -/
structure Anchor where
  text : String
  href : String
  deriving DecidableEq, Repr

/-- A table cell (`<td>`): its stripped text and the first anchor in it,
if any (`cols[i].get_text(strip=True)`, `cols[i].find('a')`). -/
structure Cell where
  text : String
  anchor : Option Anchor
  deriving DecidableEq, Repr

/-- Placeholder cell for the (unreachable) out-of-range index accesses:
every access below is guarded by the `len(cols) < 4` row check. -/
def defCell : Cell := { text := "", anchor := none }

/-- Python `cols[i]` (guarded in the source by the length check). -/
def col (row : List Cell) (i : Nat) : Cell :=
  row.getD i defCell

/-- Python `cols[-1]`: the last cell of the row. -/
def lastCol (row : List Cell) : Cell :=
  row.getLastD defCell

/-- A post record built by `main.py`'s `crawl_posts` (it also records the
keyword whose search page produced the row). -/
structure SearchPost where
  keyword : String
  title : String
  date : String
  views : String
  link : String
  deriving DecidableEq, Repr

/-- A post record built by `pokergosu_crawler.py`'s `crawl_posts`. -/
structure BoardPost where
  title : String
  date : String
  views : String
  link : String
  deriving DecidableEq, Repr

/-- The configured keyword list, identical in both variants
(`KEYWORDS = ['피망', 'WPL', 'gg포커', '투에이스', '더블에이']`). -/
def KEYWORDS : List String :=
  ["피망", "WPL", "gg포커", "투에이스", "더블에이"]

/-- Link normalization, identical lines in both variants:
`if not link.startswith('http'): link = "https://www.pokergosu.com" + link`. -/
def normalizeLink (link : String) : String :=
  if !(pyStartsWith link "http") then "https://www.pokergosu.com" ++ link
  else link

/-- The date acceptance condition of the whole-board variant
(`pokergosu_crawler.py` lines 53–58): the row survives exactly when the date
text contains a dash, has length at least 5, and ends with yesterday's
month-day string (`yesterday.strftime('%m-%d')`). -/
def dateAcceptBoard (yMD date_text : String) : Bool :=
  (pyHasChar date_text '-' && decide (5 ≤ pyLen date_text)) &&
    pyEndsWith date_text yMD

/-- The date acceptance condition of the search variant (`main.py` line 72):
a bare suffix test against yesterday's month-day string. -/
def dateAcceptSearch (yMD date_text : String) : Bool :=
  pyEndsWith date_text yMD

/-- The title keyword filter of the whole-board variant (line 70):
`any(keyword in title for keyword in KEYWORDS)`. -/
def titleHasKeyword (title : String) : Bool :=
  KEYWORDS.any (fun keyword => pyInStr keyword title)

/-- Per-row extraction of `main.py`'s `crawl_posts` (lines 66–89): skip rows
with fewer than 4 columns, keep the row only if `cols[3]`'s text ends with
`yesterday_str`, skip rows whose `cols[1]` holds no anchor, normalize the
link, and read views from the last column; the produced record carries the
keyword being searched.  No keyword-in-title check is performed here. -/
def rowPostSearch (yMD keyword : String) (row : List Cell) : Option SearchPost :=
  if row.length < 4 then none
  else
    let date_text := (col row 3).text
    if dateAcceptSearch yMD date_text then
      match (col row 1).anchor with
      | none => none
      | some title_tag =>
          some { keyword := keyword
                 title := title_tag.text
                 date := date_text
                 views := (lastCol row).text
                 link := normalizeLink title_tag.href }
    else none

/-- Per-row extraction of `pokergosu_crawler.py`'s `crawl_posts`
(lines 45–76): skip rows with fewer than 4 columns, apply the dash/length
heuristic and the yesterday suffix test to `cols[3]`'s text, skip rows whose
`cols[1]` holds no anchor, normalize the link, read views from the last
column, and keep the row only if the title contains some keyword. -/
def rowPostBoard (yMD : String) (row : List Cell) : Option BoardPost :=
  if row.length < 4 then none
  else
    let date_text := (col row 3).text
    if dateAcceptBoard yMD date_text then
      match (col row 1).anchor with
      | none => none
      | some title_tag =>
          if titleHasKeyword title_tag.text then
            some { title := title_tag.text
                   date := date_text
                   views := (lastCol row).text
                   link := normalizeLink title_tag.href }
          else none
    else none

/-- Outcome of one `requests.get` + `raise_for_status` pair, with the body
already parsed into rows: `httpError` is the non-2xx case
(`requests.exceptions.HTTPError` raised by `raise_for_status`), while
`transportError` is a connection-level failure raised by `requests.get`
itself (e.g. `ConnectionError`, `Timeout`), which is not an `HTTPError`. -/
inductive FetchResult where
  | ok (rows : List (List Cell)) : FetchResult
  | httpError : FetchResult
  | transportError : FetchResult
  deriving DecidableEq, Repr

/-- `main.py`'s `crawl_posts` loop over the configured keywords
(lines 48–94), the fetch modelled as a function from the keyword being
searched to the outcome of its search-page request.  The
`except requests.exceptions.HTTPError` handler catches only the non-2xx
case and moves on to the next keyword; a transport-level failure is not an
`HTTPError`, propagates out of the function, and kills the run, modelled as
`Except.error ()`. -/
def crawlSearch (fetch : String → FetchResult) (yMD : String) :
    List String → Except Unit (List SearchPost)
  | [] => Except.ok []
  | keyword :: rest =>
      match fetch keyword with
      | FetchResult.httpError => crawlSearch fetch yMD rest
      | FetchResult.transportError => Except.error ()
      | FetchResult.ok rows =>
          match crawlSearch fetch yMD rest with
          | Except.error e => Except.error e
          | Except.ok later =>
              Except.ok (rows.filterMap (rowPostSearch yMD keyword) ++ later)

/-- `pokergosu_crawler.py`'s `crawl_posts` (lines 35–77): a single fetch of
the board listing with no exception handling, so both a non-2xx status and
a transport failure propagate and are fatal to the run. -/
def crawlBoard (fetch : FetchResult) (yMD : String) :
    Except Unit (List BoardPost) :=
  match fetch with
  | FetchResult.ok rows => Except.ok (rows.filterMap (rowPostBoard yMD))
  | FetchResult.httpError => Except.error ()
  | FetchResult.transportError => Except.error ()

/-- Header banner of `make_email_html` (`main.py` lines 107–112). -/
def reportHeader (send_date : String) : String :=
  "\n    <div style=\"background:#22344b;color:white;padding:20px;font-size:22px;\">\n        <b>포커고수 키워드 알림</b><br>\n        <span style=\"font-size:14px;color:#bce0ff;\">전날(" ++
    send_date ++ ")의 키워드 새 게시물 모음</span>\n    </div>\n    "

/-- Total-count line of `make_email_html` (line 114). -/
def totalLine (total : Nat) : String :=
  "<div style=\"padding:12px 0;\">총 <b>" ++ toString total ++
    "</b>개의 새로운 게시물이 발견되었습니다</div>"

/-- One post entry inside a keyword section (lines 120–126). -/
def postDiv (p : SearchPost) : String :=
  "\n            <div style=\"padding:7px 0 7px 10px;border-bottom:1px solid #ececec;\">\n                <b style=\"font-size:17px;\">" ++
    p.title ++
    "</b><br>\n                <span style=\"color:#888;font-size:13px;\">날짜: " ++
    p.date ++ " | 조회수: " ++ p.views ++
    "</span><br>\n                <a href=\"" ++ p.link ++
    "\" style=\"color:#0088ee;text-decoration:underline;\" target=\"_blank\">게시물 보기 →</a>\n            </div>\n            "

/-- One keyword section of the report: rule, heading with the displayed
per-keyword count, then the posts of the group (lines 116–126). -/
def sectionHtml (keyword : String) (plist : List SearchPost) : String :=
  "<hr style=\"border:1px solid #bce0ff;\">" ++
    "<h3 style=\"color:#1566d6;\">🔍 키워드: " ++ keyword ++
    " <span style=\"font-size:14px;color:#666;\">(" ++ toString plist.length ++
    "개)</span></h3>" ++
    plist.foldl (fun acc p => acc ++ postDiv p) ""

/-- One step of the `grouped.setdefault(p['keyword'], []).append(p)` loop
(lines 103–105) over an insertion-ordered association list: append the post
to its keyword's group if present, else add a new group at the end. -/
def insertGrouped (g : List (String × List SearchPost)) (p : SearchPost) :
    List (String × List SearchPost) :=
  match g with
  | [] => [(p.keyword, [p])]
  | (k, ps) :: rest =>
      if k == p.keyword then (k, ps ++ [p]) :: rest
      else (k, ps) :: insertGrouped rest p

/-- The keyword grouping built by `make_email_html`, a Python dict in
insertion order. -/
def grouped (posts : List SearchPost) : List (String × List SearchPost) :=
  posts.foldl insertGrouped []

/-- `main.py`'s `make_email_html` (lines 97–127): header banner, total-count
line, then one section per keyword group in first-seen order. -/
def make_email_html (posts : List SearchPost) (send_date : String) : String :=
  (grouped posts).foldl (fun acc kp => acc ++ sectionHtml kp.1 kp.2)
    (reportHeader send_date ++ totalLine posts.length)

/-- One table row of `pokergosu_crawler.py`'s `make_html_table`
(lines 88–94). -/
def tableRow (p : BoardPost) : String :=
  "<tr>" ++ "<td>" ++ p.title ++ "</td>" ++ "<td>" ++ p.date ++ "</td>" ++
    "<td>" ++ p.views ++ "</td>" ++ "<td><a href=\"" ++ p.link ++
    "\">바로가기</a></td>" ++ "</tr>"

/-- `pokergosu_crawler.py`'s `make_html_table` (lines 80–96): the fixed
empty-notice paragraph when no posts were retained, else a bordered table
with a header row and one row per post. -/
def make_html_table (posts : List BoardPost) : String :=
  if posts.isEmpty then "<p>어제는 키워드가 포함된 게시글이 없습니다.</p>"
  else
    (posts.foldl (fun acc p => acc ++ tableRow p)
        ("<table border=\"1\" cellpadding=\"4\" cellspacing=\"0\" style=\"border-collapse:collapse;\">" ++
          "<tr><th>제목</th><th>날짜</th><th>조회수</th><th>링크</th></tr>")) ++
      "</table>"

/-- One `server.sendmail(EMAIL_USER, EMAIL_TO.split(','), msg.as_string())`
call, with the surrounding session's host, port and login user. -/
structure SmtpSend where
  host : String
  port : Int
  user : Option String
  recipients : List String
  subject : String
  html : String
  deriving DecidableEq, Repr

/-- `send_email` of both variants (`main.py` lines 130–144,
`pokergosu_crawler.py` lines 99–113), as the list of sendmail calls it
issues: exactly one, whose recipient list is `EMAIL_TO.split(',')` with no
whitespace trimming. -/
def send_email (user : Option String) (emailTo : String) (host : String)
    (port : Int) (subject html : String) : List SmtpSend :=
  [{ host := host
     port := port
     user := user
     recipients := pySplitComma emailTo
     subject := subject
     html := html }]

/-- Outcome of `main.py`'s `main` after the crawl: either the notifier ran,
or it was skipped with the printed diagnostic (lines 158–161). -/
inductive SearchOutcome where
  | sent (calls : List SmtpSend) : SearchOutcome
  | diagnosticOnly (msg : String) : SearchOutcome
  deriving DecidableEq, Repr

/-- `main.py`'s `main` (lines 147–161), from the crawled posts on: builds
the HTML summary and subject, then sends only when the retained-post list
is nonempty, else prints the diagnostic and never invokes `send_email`. -/
def search_main (user : Option String) (emailTo : String) (host : String)
    (port : Int) (posts : List SearchPost) (ymd : String) : SearchOutcome :=
  let html_content := make_email_html posts ymd
  let subject := "[포커고수 요약] " ++ ymd ++ " 키워드 게시글"
  if !posts.isEmpty then
    SearchOutcome.sent (send_email user emailTo host port subject html_content)
  else
    SearchOutcome.diagnosticOnly
      "어제 날짜의 키워드 게시물이 없습니다. 이메일을 발송하지 않습니다."

/-- The process environment, a finite map from variable names to values. -/
structure Env where
  vars : List (String × String)

/-- Python `os.environ.get(k)`: the first binding of `k`, if any. -/
def envGet (env : Env) (k : String) : Option String :=
  (env.vars.find? (fun kv => kv.1 == k)).map (fun kv => kv.2)

/-- Whitespace stripped by Python `int(str)` before parsing. -/
def isPySpace (c : Char) : Bool :=
  c == ' ' || c == '\t' || c == '\n' || c == '\r' || c == '\x0b' || c == '\x0c'

/-- Digit-run parser continuing after an initial digit: Python integer
literals allow single underscores between digits. -/
def pyIntDigitsGo (acc : Nat) : List Char → Option Nat
  | [] => some acc
  | '_' :: c :: rest =>
      if c.isDigit then pyIntDigitsGo (acc * 10 + (c.toNat - 48)) rest
      else none
  | ['_'] => none
  | c :: rest =>
      if c.isDigit then pyIntDigitsGo (acc * 10 + (c.toNat - 48)) rest
      else none

/-- Nonempty digit run (with Python's underscore-grouping rule). -/
def pyIntDigits : List Char → Option Nat
  | [] => none
  | c :: rest =>
      if c.isDigit then pyIntDigitsGo (c.toNat - 48) rest
      else none

/-- Leading and trailing whitespace removal, as `int(str)` performs. -/
def pyStrip (l : List Char) : List Char :=
  ((l.dropWhile isPySpace).reverse.dropWhile isPySpace).reverse

/-- Python `int(s)` on a string in base 10: strip whitespace, optional
sign, then a nonempty digit run; `none` models the `ValueError` raised on
anything else. -/
def pyInt (s : String) : Option Int :=
  match pyStrip s.data with
  | '+' :: rest => (pyIntDigits rest).map (fun n => (n : Int))
  | '-' :: rest => (pyIntDigits rest).map (fun n => -(n : Int))
  | rest => (pyIntDigits rest).map (fun n => (n : Int))

/-- The module-level configuration values of both variants
(`main.py` lines 21–25, `pokergosu_crawler.py` lines 19–23). -/
structure Config where
  emailUser : Option String
  emailPassword : Option String
  emailTo : Option String
  emailSmtp : String
  emailPort : Int
  deriving DecidableEq, Repr

/-- The module-level environment reads, identical in both variants.
`EMAIL_PORT = int(os.environ.get('EMAIL_PORT', 587))` runs `int` at import
time: an absent variable falls back to 587, but a present malformed value
makes `int` raise `ValueError` before anything else in the module runs,
modelled as `Except.error ()`. -/
def loadConfig (env : Env) : Except Unit Config :=
  let port :=
    match envGet env "EMAIL_PORT" with
    | none => some (587 : Int)
    | some s => pyInt s
  match port with
  | none => Except.error ()
  | some p =>
      Except.ok
        { emailUser := envGet env "EMAIL_USER"
          emailPassword := envGet env "EMAIL_PASSWORD"
          emailTo := envGet env "EMAIL_TO"
          emailSmtp := (envGet env "EMAIL_SMTP").getD "smtp.gmail.com"
          emailPort := p }

/-- Externally visible side effects of a run: HTTP GET requests (recorded
by the keyword searched, or the listing URL) and SMTP sendmail calls. -/
inductive Action where
  | httpGet (target : String) : Action
  | smtpSend (call : SmtpSend) : Action
  deriving DecidableEq, Repr

/-- The per-keyword request loop of `main.py`'s `crawl_posts` together with
the HTTP requests it issues: each keyword's request is attempted in order;
a caught `HTTPError` moves on, an uncaught transport error stops the loop
(and the run) at that keyword. -/
def crawlSearchTrace (fetch : String → FetchResult) (yMD : String) :
    List String → List Action × Except Unit (List SearchPost)
  | [] => ([], Except.ok [])
  | keyword :: rest =>
      match fetch keyword with
      | FetchResult.httpError =>
          let later := crawlSearchTrace fetch yMD rest
          (Action.httpGet keyword :: later.1, later.2)
      | FetchResult.transportError => ([Action.httpGet keyword], Except.error ())
      | FetchResult.ok rows =>
          let later := crawlSearchTrace fetch yMD rest
          (Action.httpGet keyword :: later.1,
            match later.2 with
            | Except.error e => Except.error e
            | Except.ok ps =>
                Except.ok (rows.filterMap (rowPostSearch yMD keyword) ++ ps))

/-- A whole run of `main.py`: module import (environment reads, where a
malformed `EMAIL_PORT` already raises), then `main` — crawl, build the
summary, and send unless no post was retained.  Returns the actions
performed and whether the process finished or died on an uncaught
exception. -/
def search_program (env : Env) (fetch : String → FetchResult)
    (ymd yMD : String) : List Action × Except Unit Unit :=
  match loadConfig env with
  | Except.error _ => ([], Except.error ())
  | Except.ok cfg =>
      let crawl := crawlSearchTrace fetch yMD KEYWORDS
      match crawl.2 with
      | Except.error _ => (crawl.1, Except.error ())
      | Except.ok posts =>
          if !posts.isEmpty then
            match cfg.emailTo with
            | none => (crawl.1, Except.error ())
            | some toAddr =>
                (crawl.1 ++
                  (send_email cfg.emailUser toAddr cfg.emailSmtp cfg.emailPort
                      ("[포커고수 요약] " ++ ymd ++ " 키워드 게시글")
                      (make_email_html posts ymd)).map Action.smtpSend,
                  Except.ok ())
          else (crawl.1, Except.ok ())

/-- A whole run of `pokergosu_crawler.py`: module import, then `main` —
one listing fetch (both failure kinds fatal), the HTML table, and an
unconditional send. -/
def board_program (env : Env) (fetch : FetchResult) (ymd yMD : String) :
    List Action × Except Unit Unit :=
  match loadConfig env with
  | Except.error _ => ([], Except.error ())
  | Except.ok cfg =>
      let act := Action.httpGet "https://www.pokergosu.com/free"
      match crawlBoard fetch yMD with
      | Except.error _ => ([act], Except.error ())
      | Except.ok posts =>
          match cfg.emailTo with
          | none => ([act], Except.error ())
          | some toAddr =>
              ([act] ++
                (send_email cfg.emailUser toAddr cfg.emailSmtp cfg.emailPort
                    ("[포커고수 요약] " ++ ymd ++ " 키워드 게시글")
                    (make_html_table posts)).map Action.smtpSend,
                Except.ok ())

/-- Concatenation of a list of strings, for stating how the report is
assembled from its pieces. -/
def strConcat : List String → String
  | [] => ""
  | s :: rest => s ++ strConcat rest

/-- Association-list lookup on the keyword grouping (first binding wins,
like a Python dict whose keys are unique). -/
def lookupG (g : List (String × List SearchPost)) (k : String) :
    Option (List SearchPost) :=
  (g.find? (fun kp => kp.1 == k)).map (fun kp => kp.2)

/-- Tail of a URI scheme: ALPHA / DIGIT / plus / minus / dot characters
terminated by a colon. -/
def schemeTail : List Char → Bool
  | [] => false
  | c :: rest =>
      if c == ':' then true
      else (c.isAlphanum || c == '+' || c == '-' || c == '.') && schemeTail rest

/-- Modelled from the spec: a link "starting with a scheme" in the sense of
URI syntax — an ALPHA followed by ALPHA / DIGIT / plus / minus / dot
characters and then a colon.  This follows the spec's wording ("when the
link does not already start with a scheme") and exists only to compare that
wording against the code's literal test; the code itself checks
`link.startswith('http')`. -/
def startsWithScheme (s : String) : Bool :=
  match s.data with
  | [] => false
  | c :: rest => c.isAlpha && schemeTail rest

/-- A well-formed four-column row whose post title is "hello" — a title
containing none of the configured keywords — dated "10-11". -/
def rowHello : List Cell :=
  [{ text := "1", anchor := none },
   { text := "hello", anchor := some { text := "hello", href := "/free/1" } },
   { text := "author", anchor := none },
   { text := "10-11", anchor := none }]

/-- A well-formed four-column row whose post title contains the keyword
"피망", dated "10-11". -/
def rowPimang : List Cell :=
  [{ text := "1", anchor := none },
   { text := "피망 이벤트 공지",
     anchor := some { text := "피망 이벤트 공지", href := "/free/2" } },
   { text := "author", anchor := none },
   { text := "10-11", anchor := none }]

/-- A three-column (ad-like) row. -/
def rowShort : List Cell :=
  [{ text := "1", anchor := none },
   { text := "ad", anchor := some { text := "ad", href := "/ad" } },
   { text := "10-11", anchor := none }]

/-- The post `main.py` builds from `rowHello` when searching "피망". -/
def postHello : SearchPost :=
  { keyword := "피망", title := "hello", date := "10-11",
    views := "10-11", link := "https://www.pokergosu.com/free/1" }

/-- A fetch under which only the "피망" search page returns a row — the
`rowHello` row, whose title contains no keyword at all. -/
def fetchHello : String → FetchResult := fun kw =>
  if kw == "피망" then FetchResult.ok [rowHello] else FetchResult.ok []

/-- A fetch whose first keyword request dies with a transport-level error
while every other keyword request succeeds. -/
def fetchTransportFirst : String → FetchResult := fun kw =>
  if kw == "피망" then FetchResult.transportError else FetchResult.ok []

/-- The post the whole-board variant builds from `rowPimang`. -/
def postPimang : BoardPost :=
  { title := "피망 이벤트 공지", date := "10-11",
    views := "10-11", link := "https://www.pokergosu.com/free/2" }

/-- A well-formed row dated "10-09" (not yesterday when yesterday is
"10-11"), with a keyword-bearing title. -/
def rowOldDate : List Cell :=
  [{ text := "1", anchor := none },
   { text := "피망 이벤트 공지",
     anchor := some { text := "피망 이벤트 공지", href := "/free/3" } },
   { text := "author", anchor := none },
   { text := "10-09", anchor := none }]

/-- An environment whose `EMAIL_PORT` is set to a non-integer string. -/
def envBadPort : Env := { vars := [("EMAIL_PORT", "abc")] }

/-- An environment with no `EMAIL_PORT` binding at all. -/
def envNoPort : Env := { vars := [("EMAIL_USER", "u@x.com")] }

/-! Helper lemmas about the row steps, the suffix test, and the keyword
grouping.  These are shared infrastructure, not claim statements. -/

theorem rowPostSearch_short {yMD keyword : String} {row : List Cell}
    (h : row.length < 4) : rowPostSearch yMD keyword row = none := by
  simp [rowPostSearch, h]

theorem rowPostBoard_short {yMD : String} {row : List Cell}
    (h : row.length < 4) : rowPostBoard yMD row = none := by
  simp [rowPostBoard, h]

theorem rowPostSearch_dateReject {yMD keyword : String} {row : List Cell}
    (h : dateAcceptSearch yMD (col row 3).text = false) :
    rowPostSearch yMD keyword row = none := by
  simp [rowPostSearch, h]

theorem rowPostBoard_dateReject {yMD : String} {row : List Cell}
    (h : dateAcceptBoard yMD (col row 3).text = false) :
    rowPostBoard yMD row = none := by
  simp [rowPostBoard, h]

theorem rowPostSearch_mk {yMD keyword : String} {row : List Cell}
    {title_tag : Anchor} (h4 : ¬ row.length < 4)
    (ha : (col row 1).anchor = some title_tag)
    (hd : dateAcceptSearch yMD (col row 3).text = true) :
    rowPostSearch yMD keyword row =
      some { keyword := keyword
             title := title_tag.text
             date := (col row 3).text
             views := (lastCol row).text
             link := normalizeLink title_tag.href } := by
  simp [rowPostSearch, h4, ha, hd]

theorem rowPostSearch_some {yMD keyword : String} {row : List Cell}
    {p : SearchPost} (h : rowPostSearch yMD keyword row = some p) :
    ∃ title_tag, (col row 1).anchor = some title_tag
      ∧ p.title = title_tag.text ∧ p.link = normalizeLink title_tag.href := by
  by_cases h4 : row.length < 4
  · rw [rowPostSearch_short h4] at h
    exact absurd h (by simp)
  · cases hanchor : (col row 1).anchor with
    | none => simp [rowPostSearch, h4, hanchor] at h
    | some a =>
        simp [rowPostSearch, h4, hanchor] at h
        refine ⟨a, rfl, ?_, ?_⟩ <;> rw [← h.2]

theorem rowPostBoard_some {yMD : String} {row : List Cell}
    {p : BoardPost} (h : rowPostBoard yMD row = some p) :
    ∃ title_tag, (col row 1).anchor = some title_tag
      ∧ titleHasKeyword title_tag.text = true
      ∧ p.title = title_tag.text ∧ p.link = normalizeLink title_tag.href := by
  by_cases h4 : row.length < 4
  · rw [rowPostBoard_short h4] at h
    exact absurd h (by simp)
  · cases hanchor : (col row 1).anchor with
    | none => simp [rowPostBoard, h4, hanchor] at h
    | some a =>
        simp [rowPostBoard, h4, hanchor] at h
        refine ⟨a, rfl, h.2.1, ?_, ?_⟩ <;> rw [← h.2.2]

theorem pyEndsWith_self (s : String) : pyEndsWith s s = true := by
  simp [pyEndsWith]

theorem pyEndsWith_append (pre s : String) : pyEndsWith (pre ++ s) s = true := by
  simp [pyEndsWith, String.data_append]

theorem pyLen_append (s t : String) : pyLen (s ++ t) = pyLen s + pyLen t := by
  simp [pyLen, String.data_append]

theorem pyHasChar_append_right {t : String} (s : String) {c : Char}
    (h : pyHasChar t c = true) : pyHasChar (s ++ t) c = true := by
  simp [pyHasChar, String.data_append] at h ⊢
  exact Or.inr h

theorem dateAcceptSearch_false {yMD d : String} (h5 : pyLen yMD = 5)
    (hd : pyHasChar yMD '-' = true)
    (hbad : pyHasChar d '-' = false ∨ pyLen d < 5) :
    dateAcceptSearch yMD d = false := by
  cases hE : dateAcceptSearch yMD d with
  | false => rfl
  | true =>
      exfalso
      simp [dateAcceptSearch, pyEndsWith] at hE
      obtain ⟨t, ht⟩ := hE
      rcases hbad with hnd | hlen
      · simp [pyHasChar] at hd hnd
        exact hnd (by rw [← ht]; exact List.mem_append.mpr (Or.inr hd))
      · have hlen' : d.data.length < 5 := hlen
        have h5' : yMD.data.length = 5 := h5
        rw [← ht] at hlen'
        simp [List.length_append, h5'] at hlen' 

theorem dateAcceptBoard_false_of_search {yMD d : String}
    (h : dateAcceptSearch yMD d = false) : dateAcceptBoard yMD d = false := by
  have h' : pyEndsWith d yMD = false := h
  simp [dateAcceptBoard, h']

theorem grouped_append (ps : List SearchPost) (p : SearchPost) :
    grouped (ps ++ [p]) = insertGrouped (grouped ps) p := by
  simp [grouped, List.foldl_append]

theorem lookupG_nil (k : String) : lookupG [] k = none := rfl

theorem lookupG_cons (k0 : String) (ps0 : List SearchPost)
    (rest : List (String × List SearchPost)) (k : String) :
    lookupG ((k0, ps0) :: rest) k =
      if k0 = k then some ps0 else lookupG rest k := by
  by_cases h : k0 = k
  · simp [lookupG, List.find?_cons, h]
  · have hb : (k0 == k) = false := by simp [h]
    simp [lookupG, List.find?_cons, hb, h]

theorem lookupG_insertGrouped (g : List (String × List SearchPost))
    (p : SearchPost) (k : String) :
    lookupG (insertGrouped g p) k =
      if k = p.keyword then some ((lookupG g p.keyword).getD [] ++ [p])
      else lookupG g k := by
  induction g with
  | nil =>
      by_cases hk : k = p.keyword
      · subst hk
        simp [insertGrouped, lookupG_cons, lookupG_nil]
      · simp [insertGrouped, lookupG_cons, lookupG_nil, hk,
          show ¬ (p.keyword = k) from fun h => hk h.symm]
  | cons head rest ih =>
      obtain ⟨k0, ps0⟩ := head
      by_cases h0 : k0 = p.keyword
      · subst h0
        by_cases hk : k = p.keyword
        · subst hk
          simp [insertGrouped, lookupG_cons]
        · simp [insertGrouped, lookupG_cons, hk,
            show ¬ (p.keyword = k) from fun h => hk h.symm]
      · have hb0 : (k0 == p.keyword) = false := by simp [h0]
        by_cases hk : k = p.keyword
        · subst hk
          simp [insertGrouped, hb0, lookupG_cons, h0, ih]
        · by_cases hk0 : k0 = k
          · subst hk0
            simp [insertGrouped, hb0, lookupG_cons, hk]
          · simp [insertGrouped, hb0, lookupG_cons, hk, hk0, ih]

theorem lookupG_grouped (ps : List SearchPost) (k : String) :
    lookupG (grouped ps) k =
      if ps.filter (fun p => p.keyword == k) = [] then none
      else some (ps.filter (fun p => p.keyword == k)) := by
  induction ps using List.reverseRecOn with
  | nil => simp [grouped, lookupG]
  | append_singleton ps p ih =>
      rw [grouped_append, lookupG_insertGrouped]
      by_cases hk : k = p.keyword
      · rw [if_pos hk]
        have hpk : (p.keyword == k) = true := by simp [hk]
        have hfilter : (ps ++ [p]).filter (fun q => q.keyword == k) =
            ps.filter (fun q => q.keyword == k) ++ [p] := by
          simp [List.filter_append, hpk]
        rw [hfilter, ← hk, ih]
        by_cases he : ps.filter (fun q => q.keyword == k) = []
        · simp [he]
        · simp [he]
      · rw [if_neg hk]
        have hpk : (p.keyword == k) = false := by
          simp [show ¬ (p.keyword = k) from fun h => hk h.symm]
        have hfilter : (ps ++ [p]).filter (fun q => q.keyword == k) =
            ps.filter (fun q => q.keyword == k) := by
          simp [List.filter_append, hpk]
        rw [hfilter, ih]

theorem mem_lookupG {g : List (String × List SearchPost)}
    {kp : String × List SearchPost} (hnd : (g.map Prod.fst).Nodup)
    (hm : kp ∈ g) : lookupG g kp.1 = some kp.2 := by
  induction g with
  | nil => cases hm
  | cons head rest ih =>
      obtain ⟨k0, ps0⟩ := head
      simp only [List.map_cons, List.nodup_cons] at hnd
      rcases List.mem_cons.mp hm with he | hr
      · subst he
        simp [lookupG_cons]
      · rw [lookupG_cons]
        have hne : ¬ (k0 = kp.1) := by
          intro hcontra
          exact hnd.1 (by rw [hcontra]; exact List.mem_map.mpr ⟨kp, hr, rfl⟩)
        rw [if_neg hne]
        exact ih hnd.2 hr

theorem keys_insertGrouped (g : List (String × List SearchPost))
    (p : SearchPost) :
    (insertGrouped g p).map Prod.fst =
      if p.keyword ∈ g.map Prod.fst then g.map Prod.fst
      else g.map Prod.fst ++ [p.keyword] := by
  induction g with
  | nil => simp [insertGrouped]
  | cons head rest ih =>
      obtain ⟨k0, ps0⟩ := head
      by_cases h0 : k0 = p.keyword
      · subst h0
        simp [insertGrouped]
      · have hb0 : (k0 == p.keyword) = false := by simp [h0]
        have hne : ¬ (p.keyword = k0) := fun h => h0 h.symm
        by_cases hm : p.keyword ∈ rest.map Prod.fst
        · simp [insertGrouped, hb0, ih, hm, hne]
        · simp [insertGrouped, hb0, ih, hm, hne]

theorem keys_grouped_nodup (ps : List SearchPost) :
    ((grouped ps).map Prod.fst).Nodup := by
  induction ps using List.reverseRecOn with
  | nil => simp [grouped]
  | append_singleton ps p ih =>
      rw [grouped_append, keys_insertGrouped]
      by_cases hm : p.keyword ∈ (grouped ps).map Prod.fst
      · simp [hm, ih]
      · simp [hm, List.nodup_append, ih]

theorem grouped_mem_filter {ps : List SearchPost}
    {kp : String × List SearchPost} (hm : kp ∈ grouped ps) :
    kp.2 = ps.filter (fun p => p.keyword == kp.1) := by
  have hl := mem_lookupG (keys_grouped_nodup ps) hm
  rw [lookupG_grouped] at hl
  by_cases he : ps.filter (fun p => p.keyword == kp.1) = []
  · rw [if_pos he] at hl
    cases hl
  · rw [if_neg he] at hl
    exact (Option.some.inj hl).symm

theorem foldl_append_strConcat {α : Type} (l : List α) (f : α → String)
    (acc : String) :
    l.foldl (fun a x => a ++ f x) acc = acc ++ strConcat (l.map f) := by
  induction l generalizing acc with
  | nil => simp [strConcat, String.append_empty]
  | cons x xs ih => simp [strConcat, ih, String.append_assoc]

/-! The claims. -/

/-- C1, counterexample: in the per-keyword search variant (`main.py`), a
yesterday-dated row whose title contains no configured keyword at all is
still retained — the claimed defense-in-depth keyword check does not run
there.  The crawl over the full keyword list retains the "hello" post, and
no configured keyword is a substring of "hello". -/
theorem C1_counterexample :
    crawlSearch fetchHello "10-11" KEYWORDS = Except.ok [postHello]
    ∧ ∀ kw ∈ KEYWORDS, ¬ (kw.data <:+: postHello.title.data) :=
  ⟨rfl, by decide⟩

/-- C1, amended: only the whole-board variant filters titles by keyword —
every Post it retains has a title containing at least one configured
keyword as a literal, case-sensitive substring; the per-keyword search
variant retains a row purely on the date test and anchor presence,
whatever its title. -/
theorem C1_keyword_filter (yMD : String) :
    (∀ fetch posts p, crawlBoard fetch yMD = Except.ok posts → p ∈ posts →
        ∃ kw ∈ KEYWORDS, kw.data <:+: p.title.data)
    ∧ (∀ keyword row title_tag, ¬ row.length < 4 →
        (col row 1).anchor = some title_tag →
        dateAcceptSearch yMD (col row 3).text = true →
        rowPostSearch yMD keyword row =
          some { keyword := keyword
                 title := title_tag.text
                 date := (col row 3).text
                 views := (lastCol row).text
                 link := normalizeLink title_tag.href }) := by
  constructor
  · intro fetch posts p hok hmem
    cases fetch with
    | ok rows =>
        simp only [crawlBoard, Except.ok.injEq] at hok
        subst hok
        obtain ⟨row, _, hsome⟩ := List.mem_filterMap.mp hmem
        obtain ⟨a, _, hkw, htitle, _⟩ := rowPostBoard_some hsome
        have hkw' : KEYWORDS.any (fun kw => pyInStr kw a.text) = true := hkw
        obtain ⟨kw, hmemk, hin⟩ := List.any_eq_true.mp hkw'
        refine ⟨kw, hmemk, ?_⟩
        rw [htitle]
        exact of_decide_eq_true hin
    | httpError => simp [crawlBoard] at hok
    | transportError => simp [crawlBoard] at hok
  · intro keyword row title_tag h4 ha hd
    exact rowPostSearch_mk h4 ha hd

/-- C1, witness: the keyword-bearing board post retained from `rowPimang`
has a keyword in its title, and the search variant retains the keyword-free
"hello" row. -/
theorem C1_keyword_filter_witness :
    (∃ kw ∈ KEYWORDS, kw.data <:+: postPimang.title.data)
    ∧ rowPostSearch "10-11" "피망" rowHello =
        some { keyword := "피망"
               title := "hello"
               date := "10-11"
               views := "10-11"
               link := normalizeLink "/free/1" } :=
  ⟨(C1_keyword_filter "10-11").1 (FetchResult.ok [rowPimang]) _ postPimang
      rfl (by decide),
   (C1_keyword_filter "10-11").2 "피망" rowHello
      { text := "hello", href := "/free/1" } (by decide) (by decide)
      (by decide)⟩

/-- C2: in both variants a row whose date text does not end with the run's
yesterday month-day string yields no Post, whatever it contains; and the
date test is a suffix comparison, so both the bare "MM-DD" form and any
longer "YYYY-MM-DD"-style form ending in yesterday's month-day pass the
date acceptance test of either variant. -/
theorem C2_yesterday_suffix (yMD : String) (h5 : pyLen yMD = 5)
    (hd : pyHasChar yMD '-' = true) :
    (∀ keyword row, pyEndsWith (col row 3).text yMD = false →
        rowPostSearch yMD keyword row = none)
    ∧ (∀ row, pyEndsWith (col row 3).text yMD = false →
        rowPostBoard yMD row = none)
    ∧ dateAcceptSearch yMD yMD = true
    ∧ (∀ pre, dateAcceptSearch yMD (pre ++ yMD) = true)
    ∧ dateAcceptBoard yMD yMD = true
    ∧ (∀ pre, dateAcceptBoard yMD (pre ++ yMD) = true) := by
  refine ⟨?_, ?_, ?_, ?_, ?_, ?_⟩
  · intro keyword row h
    exact rowPostSearch_dateReject h
  · intro row h
    exact rowPostBoard_dateReject (dateAcceptBoard_false_of_search h)
  · exact pyEndsWith_self yMD
  · intro pre
    exact pyEndsWith_append pre yMD
  · simp [dateAcceptBoard, hd, h5, pyEndsWith_self]
  · intro pre
    simp [dateAcceptBoard, pyHasChar_append_right pre hd, pyLen_append, h5,
      pyEndsWith_append]

/-- C2, witness: with yesterday "10-11" the "10-09" row is dropped by both
variants, and both "10-11" and "2025-10-11" pass the date test. -/
theorem C2_yesterday_suffix_witness :
    rowPostSearch "10-11" "피망" rowOldDate = none
    ∧ rowPostBoard "10-11" rowOldDate = none
    ∧ dateAcceptSearch "10-11" "2025-10-11" = true
    ∧ dateAcceptBoard "10-11" "2025-10-11" = true :=
  ⟨(C2_yesterday_suffix "10-11" (by decide) (by decide)).1 "피망" rowOldDate
      (by decide),
   (C2_yesterday_suffix "10-11" (by decide) (by decide)).2.1 rowOldDate
      (by decide),
   (C2_yesterday_suffix "10-11" (by decide) (by decide)).2.2.2.1 "2025-",
   (C2_yesterday_suffix "10-11" (by decide) (by decide)).2.2.2.2.2 "2025-"⟩

/-- C3: with zero retained posts, the search variant's `main` never calls
the notifier — it produces the printed diagnostic instead — and the
whole-board variant's reporter still renders its fixed zero-result
document. -/
theorem C3_empty_retained :
    (∀ user emailTo host port ymd,
        search_main user emailTo host port [] ymd =
          SearchOutcome.diagnosticOnly
            "어제 날짜의 키워드 게시물이 없습니다. 이메일을 발송하지 않습니다.")
    ∧ (∀ user emailTo host port ymd calls,
        search_main user emailTo host port [] ymd ≠ SearchOutcome.sent calls)
    ∧ make_html_table [] = "<p>어제는 키워드가 포함된 게시글이 없습니다.</p>" := by
  refine ⟨fun user emailTo host port ymd => rfl, ?_, rfl⟩
  intro user emailTo host port ymd calls h
  simp [search_main] at h

/-- C3, witness: a concrete empty run is not a send. -/
theorem C3_empty_retained_witness :
    search_main none "a@x.com" "smtp.gmail.com" 587 [] "2025-10-11" ≠
      SearchOutcome.sent
        (send_email none "a@x.com" "smtp.gmail.com" 587 "s" "h") :=
  C3_empty_retained.2.1 none "a@x.com" "smtp.gmail.com" 587 "2025-10-11" _

/-- C4, counterexample: a transport-level failure on the first keyword's
request aborts the whole per-keyword run (`Except.error`), even though the
remaining keywords would have crawled fine — iteration does not continue to
the next keyword as claimed; only `HTTPError` (non-2xx) is caught. -/
theorem C4_counterexample :
    fetchTransportFirst "피망" = FetchResult.transportError
    ∧ crawlSearch fetchTransportFirst "10-11" KEYWORDS = Except.error ()
    ∧ crawlSearch fetchTransportFirst "10-11" (KEYWORDS.drop 1) =
        Except.ok [] :=
  ⟨rfl, rfl, rfl⟩

/-- C4, amended: in the search variant a non-2xx HTTP status error is
skipped and the crawl continues with the remaining keywords, but a
transport failure aborts the run; in the whole-board variant either kind of
fetch failure is fatal. -/
theorem C4_fetch_failure (fetch : String → FetchResult)
    (yMD keyword : String) (rest : List String) :
    (fetch keyword = FetchResult.httpError →
        crawlSearch fetch yMD (keyword :: rest) = crawlSearch fetch yMD rest)
    ∧ (fetch keyword = FetchResult.transportError →
        crawlSearch fetch yMD (keyword :: rest) = Except.error ())
    ∧ crawlBoard FetchResult.httpError yMD = Except.error ()
    ∧ crawlBoard FetchResult.transportError yMD = Except.error () := by
  refine ⟨?_, ?_, rfl, rfl⟩
  · intro h
    simp [crawlSearch, h]
  · intro h
    simp [crawlSearch, h]

/-- C4, witness: concrete skip-and-continue on an HTTP status error, and a
concrete abort on a transport error. -/
theorem C4_fetch_failure_witness :
    crawlSearch (fun _ => FetchResult.httpError) "10-11" ["피망"] =
        crawlSearch (fun _ => FetchResult.httpError) "10-11" []
    ∧ crawlSearch fetchTransportFirst "10-11" ["피망"] = Except.error () :=
  ⟨(C4_fetch_failure (fun _ => FetchResult.httpError) "10-11" "피망" []).1 rfl,
   (C4_fetch_failure fetchTransportFirst "10-11" "피망" []).2.1 rfl⟩

/-- C5, counterexample: the code's test is the literal prefix "http", not
scheme detection — the absolute link "ftp://x" (which starts with a
scheme) is still rewritten by prefixing the site origin, and the relative
link "httpdocs/a" (which starts with no scheme) passes through
unchanged. -/
theorem C5_counterexample :
    startsWithScheme "ftp://x" = true
    ∧ normalizeLink "ftp://x" ≠ "ftp://x"
    ∧ startsWithScheme "httpdocs/a" = false
    ∧ normalizeLink "httpdocs/a" = "httpdocs/a" :=
  ⟨by decide, by decide, by decide, by decide⟩

/-- C5, amended: a link not starting with the literal string "http" is
rewritten to the fixed site origin followed by the link, a link starting
with "http" (in particular any http or https absolute URL) passes through
unchanged, and every extracted post's link in either variant is exactly
the normalization of its anchor's href. -/
theorem C5_link_normalization :
    (∀ link, pyStartsWith link "http" = false →
        normalizeLink link = "https://www.pokergosu.com" ++ link)
    ∧ (∀ link, pyStartsWith link "http" = true → normalizeLink link = link)
    ∧ (∀ yMD keyword row p, rowPostSearch yMD keyword row = some p →
        ∃ title_tag, (col row 1).anchor = some title_tag
          ∧ p.link = normalizeLink title_tag.href)
    ∧ (∀ yMD row p, rowPostBoard yMD row = some p →
        ∃ title_tag, (col row 1).anchor = some title_tag
          ∧ p.link = normalizeLink title_tag.href) := by
  refine ⟨?_, ?_, ?_, ?_⟩
  · intro link h
    simp [normalizeLink, h]
  · intro link h
    simp [normalizeLink, h]
  · intro yMD keyword row p h
    obtain ⟨a, ha, _, hl⟩ := rowPostSearch_some h
    exact ⟨a, ha, hl⟩
  · intro yMD row p h
    obtain ⟨a, ha, _, _, hl⟩ := rowPostBoard_some h
    exact ⟨a, ha, hl⟩

/-- C5, witness: a site-relative link is prefixed, an https link is kept. -/
theorem C5_link_normalization_witness :
    normalizeLink "/free/1" = "https://www.pokergosu.com" ++ "/free/1"
    ∧ normalizeLink "https://a.b/c" = "https://a.b/c" :=
  ⟨C5_link_normalization.1 "/free/1" (by decide),
   C5_link_normalization.2.1 "https://a.b/c" (by decide)⟩

/-- C6: the rendered report decomposes as the header, then the total-count
line displaying exactly the number of retained posts, then one section per
keyword group; and every keyword group's post list is exactly the retained
posts carrying that keyword (so each section's displayed count,
`sectionHtml`'s length of that list, equals the number of retained posts
with that keyword). -/
theorem C6_report_counts (posts : List SearchPost) (send_date : String) :
    make_email_html posts send_date =
      reportHeader send_date ++ totalLine posts.length ++
        strConcat ((grouped posts).map (fun kp => sectionHtml kp.1 kp.2))
    ∧ ∀ kp ∈ grouped posts,
        kp.2 = posts.filter (fun p => p.keyword == kp.1) := by
  constructor
  · unfold make_email_html
    exact foldl_append_strConcat (grouped posts)
      (fun kp => sectionHtml kp.1 kp.2) _
  · intro kp hm
    exact grouped_mem_filter hm

/-- C6, witness: the single group of a one-post report carries exactly the
posts with its keyword. -/
theorem C6_report_counts_witness :
    ("피망", [postHello]).2 =
      [postHello].filter (fun p => p.keyword == ("피망", [postHello]).1) :=
  (C6_report_counts [postHello] "2025-10-11").2 ("피망", [postHello])
    (by decide)

/-- C7: a date string with no dash or shorter than 5 characters fails the
date test of both variants — in the whole-board variant by its explicit
dash/length heuristic, and in the search variant because the 5-character
dash-bearing yesterday string can then not be a suffix of it — so the row
yields no Post in either variant. -/
theorem C7_unparseable_dates (yMD d : String) (h5 : pyLen yMD = 5)
    (hd : pyHasChar yMD '-' = true)
    (hbad : pyHasChar d '-' = false ∨ pyLen d < 5) :
    dateAcceptBoard yMD d = false
    ∧ dateAcceptSearch yMD d = false
    ∧ (∀ keyword row, (col row 3).text = d →
        rowPostSearch yMD keyword row = none)
    ∧ (∀ row, (col row 3).text = d → rowPostBoard yMD row = none) := by
  have hs := dateAcceptSearch_false h5 hd hbad
  refine ⟨dateAcceptBoard_false_of_search hs, hs, ?_, ?_⟩
  · intro keyword row h
    exact rowPostSearch_dateReject (by rw [h]; exact hs)
  · intro row h
    exact rowPostBoard_dateReject
      (by rw [h]; exact dateAcceptBoard_false_of_search hs)

/-- C7, witness: "today" (no dash) and "0-1" (too short) both fail the
date test against yesterday "10-11". -/
theorem C7_unparseable_dates_witness :
    dateAcceptBoard "10-11" "today" = false
    ∧ dateAcceptSearch "10-11" "0-1" = false :=
  ⟨(C7_unparseable_dates "10-11" "today" (by decide) (by decide)
      (Or.inl (by decide))).1,
   (C7_unparseable_dates "10-11" "0-1" (by decide) (by decide)
      (Or.inr (by decide))).2.1⟩

/-- C8: `send_email` issues exactly one sendmail call, whose recipient list
is the comma-split of `EMAIL_TO` with no whitespace trimming; in
particular "a@x.com,b@x.com" yields the two-element list, and a
comma-space-separated value keeps the leading space. -/
theorem C8_recipients :
    (∀ user emailTo host port subject html,
        (send_email user emailTo host port subject html).length = 1
        ∧ (send_email user emailTo host port subject html).map
            (fun c => c.recipients) = [pySplitComma emailTo])
    ∧ pySplitComma "a@x.com,b@x.com" = ["a@x.com", "b@x.com"]
    ∧ pySplitComma "a@x.com, b@x.com" = ["a@x.com", " b@x.com"] := by
  exact ⟨fun user emailTo host port subject html => ⟨rfl, rfl⟩,
    by decide, by decide⟩

/-- C9: a row with fewer than 4 columns yields no Post in either
variant. -/
theorem C9_short_rows (yMD keyword : String) (row : List Cell)
    (h : row.length < 4) :
    rowPostSearch yMD keyword row = none ∧ rowPostBoard yMD row = none :=
  ⟨rowPostSearch_short h, rowPostBoard_short h⟩

/-- C9, witness: the three-column ad row is dropped by both variants. -/
theorem C9_short_rows_witness :
    rowPostSearch "10-11" "피망" rowShort = none
    ∧ rowPostBoard "10-11" rowShort = none :=
  C9_short_rows "10-11" "피망" rowShort (by decide)

/-- C10: a present but malformed `EMAIL_PORT` makes module import fail in
both variants — the run performs no HTTP request and no SMTP send,
whatever the network would have answered — while an absent `EMAIL_PORT`
loads fine with the default port 587. -/
theorem C10_malformed_port (env : Env) :
    (∀ s, envGet env "EMAIL_PORT" = some s → pyInt s = none →
        loadConfig env = Except.error ()
        ∧ (∀ fetch ymd yMD,
            search_program env fetch ymd yMD = ([], Except.error ()))
        ∧ (∀ fetch ymd yMD,
            board_program env fetch ymd yMD = ([], Except.error ())))
    ∧ (envGet env "EMAIL_PORT" = none →
        ∃ cfg, loadConfig env = Except.ok cfg ∧ cfg.emailPort = 587) := by
  constructor
  · intro s hset hbad
    have hload : loadConfig env = Except.error () := by
      simp [loadConfig, hset, hbad]
    exact ⟨hload, fun fetch ymd yMD => by simp [search_program, hload],
      fun fetch ymd yMD => by simp [board_program, hload]⟩
  · intro hnone
    refine ⟨{ emailUser := envGet env "EMAIL_USER"
              emailPassword := envGet env "EMAIL_PASSWORD"
              emailTo := envGet env "EMAIL_TO"
              emailSmtp := (envGet env "EMAIL_SMTP").getD "smtp.gmail.com"
              emailPort := 587 }, ?_, rfl⟩
    simp [loadConfig, hnone]

/-- C10, witness: `EMAIL_PORT = "abc"` crashes the load and yields the
empty action trace, while an environment without `EMAIL_PORT` loads with
port 587. -/
theorem C10_malformed_port_witness :
    loadConfig envBadPort = Except.error ()
    ∧ search_program envBadPort (fun _ => FetchResult.ok [])
        "2025-10-11" "10-11" = ([], Except.error ())
    ∧ ∃ cfg, loadConfig envNoPort = Except.ok cfg ∧ cfg.emailPort = 587 :=
  ⟨((C10_malformed_port envBadPort).1 "abc" rfl (by decide)).1,
   ((C10_malformed_port envBadPort).1 "abc" rfl (by decide)).2.1
      (fun _ => FetchResult.ok []) "2025-10-11" "10-11",
   (C10_malformed_port envNoPort).2 rfl⟩

end Pokergosu
